import Mathlib

/-!
Verification development for the traficar fuel-consumption scripts.

The repository derives fuel-consumption events from timestamped vehicle
readings in three places:

* `calculate_fuel_consumption.py` — `calculate_consumption_from_readings`:
  batch derivation over a CSV of readings, grouped by `car_id`, sorted by
  timestamp, comparing adjacent readings.
* `monitor_traficar.py` — `save_current_state` / `calculate_consumption`:
  polling derivation comparing the current API snapshot against a state
  file written on the previous cycle.
* `read_database.py` — `calculate_fuel_consumption`: derivation over a
  SQLite table, limited to the first ten multi-reading vehicles.

Numbers are modelled with `ℚ` (Python floats carry exact decimal literals
in every scenario of interest here; `ℚ` realises the spec's "full
precision" reading of the arithmetic).  A float `NaN` arising from a
malformed CSV cell is modelled by `Option ℚ` with `none` for `NaN`:
every Python comparison against `NaN` is false, which the lifted
comparisons below reproduce.
-/

/-! ## Batch derivation (`calculate_fuel_consumption.py`) -/

/-- One row of `data/all_readings.csv` as consumed by
`calculate_consumption_from_readings`.  `fuel_liters` is `none` when the
cell is missing/NaN (pandas yields `NaN`, and `float(NaN)` stays `NaN`). -/
structure Reading where
  timestamp : ℚ
  car_id : ℤ
  car_name : String
  model_type : ℤ
  fuel_liters : Option ℚ
  available : Bool
deriving DecidableEq

/-- One emitted consumption event (the dict appended to
`consumption_events` in `calculate_consumption_from_readings`). -/
structure ConsumptionEvent where
  timestamp : ℚ
  car_id : ℤ
  car_name : String
  model_type : ℤ
  consumption_liters : ℚ
  prev_fuel_liters : ℚ
  curr_fuel_liters : ℚ
  time_diff_minutes : ℚ
  prev_timestamp : ℚ
deriving DecidableEq

/-- The body of the inner loop of `calculate_consumption_from_readings`
for one adjacent pair `(prev_row, curr_row)` of the same car.  In Python
the guard is `prev_row['available'] and curr_fuel < prev_fuel` followed by
`consumption > 0.1`; when either fuel is `NaN` both float comparisons are
false, so matching on the options first is equivalent. -/
def pairEvent (cid : ℤ) (prev curr : Reading) : Option ConsumptionEvent :=
  match prev.fuel_liters, curr.fuel_liters with
  | some prev_fuel, some curr_fuel =>
      if prev.available ∧ curr_fuel < prev_fuel then
        let consumption := prev_fuel - curr_fuel
        if 1/10 < consumption then
          some { timestamp := curr.timestamp
                 car_id := cid
                 car_name := curr.car_name
                 model_type := curr.model_type
                 consumption_liters := consumption
                 prev_fuel_liters := prev_fuel
                 curr_fuel_liters := curr_fuel
                 time_diff_minutes := (curr.timestamp - prev.timestamp) / 60
                 prev_timestamp := prev.timestamp }
        else none
      else none
  | _, _ => none

/-- `for i in range(len(car_data) - 1)`: scan adjacent pairs of one car's
time-ordered readings, collecting the emitted events in order. -/
def scanPairs (cid : ℤ) : List Reading → List ConsumptionEvent
  | [] => []
  | [_] => []
  | prev :: curr :: rest =>
      (pairEvent cid prev curr).toList ++ scanPairs cid (curr :: rest)

/-- Insert a reading into a list already sorted by ascending timestamp. -/
def insertByTs (r : Reading) : List Reading → List Reading
  | [] => [r]
  | x :: xs => if r.timestamp ≤ x.timestamp then r :: x :: xs else x :: insertByTs r xs

/-- `car_data.sort_values('timestamp')`: sort one car's readings by
ascending timestamp (tie order is undefined in the source; insertion sort
fixes one deterministic choice). -/
def sortByTs : List Reading → List Reading
  | [] => []
  | x :: xs => insertByTs x (sortByTs xs)

/-- Insert a car id into a sorted duplicate-free list of ids. -/
def insertId (i : ℤ) : List ℤ → List ℤ
  | [] => [i]
  | x :: xs => if i < x then i :: x :: xs else if i = x then x :: xs else x :: insertId i xs

/-- The group keys of `df.groupby('car_id')`: the distinct car ids in
ascending order. -/
def carIds : List Reading → List ℤ
  | [] => []
  | r :: rest => insertId r.car_id (carIds rest)

/-- `calculate_consumption_from_readings`: group the readings by car id,
sort each group by timestamp, and scan each group pairwise. -/
def calculate_consumption_from_readings (df : List Reading) : List ConsumptionEvent :=
  (carIds df).flatMap fun cid =>
    scanPairs cid (sortByTs (df.filter fun r => decide (r.car_id = cid)))

/-! ## Polling derivation (`monitor_traficar.py`) -/

/-- One car from the `/cars` API response, with the fields
`calculate_consumption` and `save_current_state` read from it. -/
structure Car where
  id : ℤ
  fuel : ℚ
  available : Bool
  modelId : ℤ
deriving DecidableEq

/-- One entry of the cached model dictionary (`data/car_models.json`). -/
structure ModelInfo where
  name : String
  type : ℤ
  maxFuel : ℚ
deriving DecidableEq

/-- Lookup in the model dictionary.  The JSON dict has unique keys, so
first-match lookup over the association list is faithful. -/
def modelLookup (models : List (ℤ × ModelInfo)) (i : ℤ) : Option ModelInfo :=
  (models.find? fun m => decide (m.1 = i)).map Prod.snd

/-- The state-file round trip for fuel: `save_current_state` writes
`f"{fuel_liters:.2f}"` and `load_previous_state` reads it back with
`float(...)`, so the previous fuel seen by the next cycle is the value
rounded to two decimal places.  (Python's formatting rounds half-to-even
on the underlying binary float; over `ℚ` we use `round`, which agrees
except exactly at a decimal half — a case no concrete input below hits.) -/
def round2 (q : ℚ) : ℚ := ((round (q * 100) : ℤ) : ℚ) / 100

/-- One row of `data/last_state.csv` as rebuilt by `load_previous_state`. -/
structure StateEntry where
  fuel_percent : ℚ
  fuel_liters : ℚ
  available : Bool
  model_id : ℤ
deriving DecidableEq

/-- `save_current_state` (as observed through `load_previous_state`): the
state file is rewritten from scratch with one row per fetched car whose
model resolves to type 1 or 2; the stored fuel is
`(car.fuel / 100) * maxFuel` rounded to two decimals by the CSV format. -/
def save_current_state (cars : List Car) (models : List (ℤ × ModelInfo)) :
    List (ℤ × StateEntry) :=
  cars.filterMap fun car =>
    match modelLookup models car.modelId with
    | none => none
    | some m =>
        if m.type = 1 ∨ m.type = 2 then
          some (car.id,
            { fuel_percent := car.fuel
              fuel_liters := round2 (car.fuel / 100 * m.maxFuel)
              available := car.available
              model_id := car.modelId })
        else none

/-- `load_previous_state` folds the rows into a dict keyed by id, so a
later row overwrites an earlier one: lookup returns the last match. -/
def stateLookup (state : List (ℤ × StateEntry)) (i : ℤ) : Option StateEntry :=
  (state.reverse.find? fun s => decide (s.1 = i)).map Prod.snd

/-- One event dict appended by `calculate_consumption` in
`monitor_traficar.py`. -/
structure MonitorEvent where
  car_id : ℤ
  consumption : ℚ
  car_name : String
  model_type : ℤ
  prev_fuel : ℚ
  curr_fuel : ℚ
deriving DecidableEq

/-- The loop body of `calculate_consumption` for one current car: skip
unknown or invalid-type models, skip cars without a previous snapshot,
normalize the current fuel, and emit on an available-previous fuel drop
above the threshold. -/
def carEvent (previous_state : List (ℤ × StateEntry))
    (models : List (ℤ × ModelInfo)) (car : Car) : Option MonitorEvent :=
  match modelLookup models car.modelId with
  | none => none
  | some m =>
      if m.type = 1 ∨ m.type = 2 then
        match stateLookup previous_state car.id with
        | none => none
        | some prev =>
            let curr_fuel_liters := car.fuel / 100 * m.maxFuel
            let prev_fuel_liters := prev.fuel_liters
            if prev.available ∧ curr_fuel_liters < prev_fuel_liters then
              let consumption := prev_fuel_liters - curr_fuel_liters
              if 1/10 < consumption then
                some { car_id := car.id
                       consumption := consumption
                       car_name := m.name
                       model_type := m.type
                       prev_fuel := prev_fuel_liters
                       curr_fuel := curr_fuel_liters }
              else none
            else none
      else none

/-- `calculate_consumption` in `monitor_traficar.py`. -/
def calculate_consumption (previous_state : List (ℤ × StateEntry))
    (current_cars : List Car) (models : List (ℤ × ModelInfo)) : List MonitorEvent :=
  current_cars.filterMap (carEvent previous_state models)

/-- Modelled from the spec: "all outputs rounded to 2 decimal places for
display/export purposes only; internal comparisons use full precision" —
state saving as it would be without the 2-decimal CSV formatting, i.e. the
previous snapshot kept at full precision.  Used only to compare against
`save_current_state`. -/
def save_state_full_precision (cars : List Car) (models : List (ℤ × ModelInfo)) :
    List (ℤ × StateEntry) :=
  cars.filterMap fun car =>
    match modelLookup models car.modelId with
    | none => none
    | some m =>
        if m.type = 1 ∨ m.type = 2 then
          some (car.id,
            { fuel_percent := car.fuel
              fuel_liters := car.fuel / 100 * m.maxFuel
              available := car.available
              model_id := car.modelId })
        else none

/-- Modelled from the spec: "Malformed individual reading (missing
required field) → that reading is excluded from its vehicle's ordered
sequence; comparisons simply skip over the gap" — the batch derivation
run after removing readings with a missing fuel field.  Used only to
compare against `calculate_consumption_from_readings`. -/
def derivation_excluding_malformed (df : List Reading) : List ConsumptionEvent :=
  calculate_consumption_from_readings (df.filter fun r => r.fuel_liters.isSome)

/-! ## Database derivation (`read_database.py`) -/

/-- One row of the `car_readings` table as selected by
`calculate_fuel_consumption` (timestamp, fuel, available). -/
structure DbReading where
  timestamp : ℤ
  fuel : ℚ
  available : Bool
deriving DecidableEq

/-- One event dict built by `calculate_fuel_consumption` in
`read_database.py`. -/
structure DbEvent where
  car_id : ℤ
  consumption : ℚ
  prev_ts : ℤ
  curr_ts : ℤ
deriving DecidableEq

/-- The inner loop body of `calculate_fuel_consumption` for one adjacent
pair of rows of the same car. -/
def dbPairEvent (cid : ℤ) (prev curr : DbReading) : Option DbEvent :=
  if prev.available ∧ curr.fuel < prev.fuel then
    let consumption := prev.fuel - curr.fuel
    if 1/10 < consumption then
      some { car_id := cid
             consumption := consumption
             prev_ts := prev.timestamp
             curr_ts := curr.timestamp }
    else none
  else none

/-- `for i in range(len(readings) - 1)` over one car's rows. -/
def dbScanPairs (cid : ℤ) : List DbReading → List DbEvent
  | [] => []
  | [_] => []
  | prev :: curr :: rest =>
      (dbPairEvent cid prev curr).toList ++ dbScanPairs cid (curr :: rest)

/-- `calculate_fuel_consumption` in `read_database.py`:
`cars_with_data` is the list of car ids having more than one reading, in
the order the `GROUP BY` query returns them, and `readings c` is car `c`'s
rows ordered by timestamp.  Only `cars_with_data[:10]` is scanned. -/
def calculate_fuel_consumption (cars_with_data : List ℤ)
    (readings : ℤ → List DbReading) : List DbEvent :=
  (cars_with_data.take 10).flatMap fun cid => dbScanPairs cid (readings cid)

/-! ## Helper lemmas -/

/-- An emitting adjacent pair fully determines the event's fields and
forces the emission invariant of the batch derivation. -/
theorem pairEvent_eq_some_spec {cid : ℤ} {prev curr : Reading} {e : ConsumptionEvent}
    (h : pairEvent cid prev curr = some e) :
    prev.available = true ∧
    prev.fuel_liters = some e.prev_fuel_liters ∧
    curr.fuel_liters = some e.curr_fuel_liters ∧
    e.car_id = cid ∧
    e.consumption_liters = e.prev_fuel_liters - e.curr_fuel_liters ∧
    e.curr_fuel_liters < e.prev_fuel_liters ∧
    1/10 < e.consumption_liters ∧
    e.car_name = curr.car_name ∧
    e.model_type = curr.model_type ∧
    e.timestamp = curr.timestamp ∧
    e.prev_timestamp = prev.timestamp := by
  rcases hp : prev.fuel_liters with _ | pf <;> rcases hc : curr.fuel_liters with _ | cf <;>
      simp only [pairEvent, hp, hc] at h <;>
    try exact Option.noConfusion h
  split_ifs at h with h1 h2
  rcases h1 with ⟨ha, hlt⟩
  cases h
  exact ⟨ha, rfl, rfl, rfl, rfl, hlt, h2, rfl, rfl, rfl, rfl⟩

/-- The batch pair test never reads the later reading's availability. -/
theorem pairEvent_ignores_curr_available (cid : ℤ) (prev curr : Reading) (b : Bool) :
    pairEvent cid prev { curr with available := b } = pairEvent cid prev curr := by
  cases curr with
  | mk ts id name mt fuel avail =>
      rcases hp : prev.fuel_liters with _ | pf <;> cases fuel <;>
        simp [pairEvent, hp]

/-- Emission and emitted values depend only on the two fuel values, the
earlier availability and the descriptive fields copied into the event. -/
theorem pairEvent_isSome_iff {cid : ℤ} {prev curr : Reading} {pf cf : ℚ}
    (hp : prev.fuel_liters = some pf) (hc : curr.fuel_liters = some cf) :
    (pairEvent cid prev curr).isSome = true ↔
      (prev.available = true ∧ cf < pf ∧ 1/10 < pf - cf) := by
  simp only [pairEvent, hp, hc]
  split_ifs with h1 h2
  · exact iff_of_true (by simp) ⟨h1.1, h1.2, h2⟩
  · refine iff_of_false (by simp) ?_
    rintro ⟨-, -, hth⟩
    exact h2 hth
  · refine iff_of_false (by simp) ?_
    rintro ⟨ha, hlt, -⟩
    exact h1 ⟨ha, hlt⟩

/-- Every event of a pairwise scan comes from a pair of readings of the
scanned list, the later of which is not the list's first element. -/
theorem mem_scanPairs {cid : ℤ} {l : List Reading} {e : ConsumptionEvent}
    (h : e ∈ scanPairs cid l) :
    ∃ A B, A ∈ l ∧ B ∈ l.tail ∧ pairEvent cid A B = some e := by
  induction l with
  | nil => simp [scanPairs] at h
  | cons x xs ih =>
      cases xs with
      | nil => simp [scanPairs] at h
      | cons y ys =>
          rw [scanPairs] at h
          rcases List.mem_append.mp h with h1 | h2
          · refine ⟨x, y, List.mem_cons_self .., List.mem_cons_self .., ?_⟩
            cases hpe : pairEvent cid x y with
            | none => rw [hpe] at h1; simp at h1
            | some a =>
                rw [hpe] at h1
                simp only [Option.toList_some, List.mem_singleton] at h1
                subst h1
                rfl
          · obtain ⟨A, B, hA, hB, hpe⟩ := ih h2
            exact ⟨A, B, List.mem_cons_of_mem _ hA, List.mem_cons_of_mem _ hB, hpe⟩

theorem mem_insertByTs {r x : Reading} {l : List Reading} :
    x ∈ insertByTs r l ↔ x = r ∨ x ∈ l := by
  induction l with
  | nil => simp [insertByTs]
  | cons a as ih =>
      by_cases h : r.timestamp ≤ a.timestamp
      · simp [insertByTs, h]
      · simp [insertByTs, h, ih]
        tauto

/-- Sorting a group by timestamp neither adds nor removes readings. -/
theorem mem_sortByTs {x : Reading} {l : List Reading} : x ∈ sortByTs l ↔ x ∈ l := by
  induction l with
  | nil => simp [sortByTs]
  | cons a as ih => simp [sortByTs, mem_insertByTs, ih]

theorem mem_insertId {i j : ℤ} {l : List ℤ} : j ∈ insertId i l ↔ j = i ∨ j ∈ l := by
  induction l with
  | nil => simp [insertId]
  | cons a as ih =>
      unfold insertId
      split_ifs with h1 h2
      · simp [List.mem_cons]
      · subst h2
        simp [List.mem_cons]
      · simp [List.mem_cons, ih]
        tauto

/-- The group keys are exactly the car ids occurring in the input. -/
theorem mem_carIds {df : List Reading} {i : ℤ} :
    i ∈ carIds df ↔ ∃ r ∈ df, r.car_id = i := by
  induction df with
  | nil => simp [carIds]
  | cons a as ih =>
      rw [carIds, mem_insertId, ih]
      constructor
      · rintro (h | ⟨r, hr, hri⟩)
        · exact ⟨a, List.mem_cons_self .., h.symm⟩
        · exact ⟨r, List.mem_cons_of_mem _ hr, hri⟩
      · rintro ⟨r, hr, hri⟩
        rcases List.mem_cons.mp hr with h | h
        · subst h
          exact Or.inl hri.symm
        · exact Or.inr ⟨r, h, hri⟩

/-- Every event of the batch derivation arises from two readings of the
input that both carry the event's car id, via the pair test. -/
theorem mem_batch_derivation {df : List Reading} {e : ConsumptionEvent}
    (h : e ∈ calculate_consumption_from_readings df) :
    ∃ A B, A ∈ df ∧ B ∈ df ∧ A.car_id = e.car_id ∧ B.car_id = e.car_id ∧
      pairEvent e.car_id A B = some e := by
  unfold calculate_consumption_from_readings at h
  rcases List.mem_flatMap.mp h with ⟨cid, _, he⟩
  obtain ⟨A, B, hA, hB, hpe⟩ := mem_scanPairs he
  have hcid : e.car_id = cid := (pairEvent_eq_some_spec hpe).2.2.2.1
  subst hcid
  have hB' := List.mem_of_mem_tail hB
  rw [mem_sortByTs] at hA hB'
  have hAdf := List.mem_filter.mp hA
  have hBdf := List.mem_filter.mp hB'
  exact ⟨A, B, hAdf.1, hBdf.1, of_decide_eq_true hAdf.2, of_decide_eq_true hBdf.2, hpe⟩

/-- A state lookup succeeds exactly when some saved row carries the id. -/
theorem stateLookup_isSome_iff {state : List (ℤ × StateEntry)} {i : ℤ} :
    (stateLookup state i).isSome = true ↔ ∃ x ∈ state, x.1 = i := by
  unfold stateLookup
  constructor
  · intro h
    rcases hf : state.reverse.find? fun s => decide (s.1 = i) with _ | x
    · rw [hf] at h
      simp at h
    · have hpx := @List.find?_some _ (fun s => decide (s.1 = i)) x state.reverse hf
      exact ⟨x, List.mem_reverse.mp (List.mem_of_find?_eq_some hf),
             of_decide_eq_true hpx⟩
  · rintro ⟨x, hx, hpx⟩
    rcases hf : state.reverse.find? fun s => decide (s.1 = i) with _ | y
    · rw [List.find?_eq_none] at hf
      exact absurd (decide_eq_true hpx) (hf x (List.mem_reverse.mpr hx))
    · rw [hf]
      simp

/-- A successful state lookup returns an entry stored under that id. -/
theorem stateLookup_eq_some {state : List (ℤ × StateEntry)} {i : ℤ} {p : StateEntry}
    (h : stateLookup state i = some p) : (i, p) ∈ state := by
  unfold stateLookup at h
  rcases hf : state.reverse.find? fun s => decide (s.1 = i) with _ | x
  · rw [hf] at h
    exact Option.noConfusion h
  · rw [hf] at h
    simp at h
    have hmem := List.mem_reverse.mp (List.mem_of_find?_eq_some hf)
    have hpx' := @List.find?_some _ (fun s => decide (s.1 = i)) x state.reverse hf
    have hpx : x.1 = i := of_decide_eq_true hpx'
    have : x = (i, p) := by
      cases x
      simp_all
    rwa [this] at hmem

/-- An emitting current car fully determines the event's fields and forces
the emission invariant of the polling derivation. -/
theorem carEvent_eq_some_spec {state : List (ℤ × StateEntry)}
    {models : List (ℤ × ModelInfo)} {car : Car} {e : MonitorEvent}
    (h : carEvent state models car = some e) :
    ∃ m, modelLookup models car.modelId = some m ∧ (m.type = 1 ∨ m.type = 2) ∧
      ∃ p, stateLookup state car.id = some p ∧ p.available = true ∧
        e.car_id = car.id ∧ e.curr_fuel = car.fuel / 100 * m.maxFuel ∧
        e.prev_fuel = p.fuel_liters ∧
        e.consumption = e.prev_fuel - e.curr_fuel ∧
        e.curr_fuel < e.prev_fuel ∧ 1/10 < e.consumption ∧
        e.car_name = m.name ∧ e.model_type = m.type := by
  rcases hm : modelLookup models car.modelId with _ | m
  · simp [carEvent, hm] at h
  · simp only [carEvent, hm] at h
    split_ifs at h with ht
    rcases hp : stateLookup state car.id with _ | p
    · simp [hp] at h
    · simp only [hp] at h
      split_ifs at h with h1 h2
      rcases h1 with ⟨ha, hlt⟩
      cases h
      exact ⟨m, rfl, ht, p, rfl, ha, rfl, rfl, rfl, rfl, hlt, h2, rfl, rfl⟩

/-- The emission test of `carEvent`, given resolved model and previous
snapshot. -/
theorem carEvent_isSome_iff {state : List (ℤ × StateEntry)}
    {models : List (ℤ × ModelInfo)} {car : Car} {m : ModelInfo} {p : StateEntry}
    (hm : modelLookup models car.modelId = some m) (ht : m.type = 1 ∨ m.type = 2)
    (hp : stateLookup state car.id = some p) :
    (carEvent state models car).isSome = true ↔
      (p.available = true ∧ car.fuel / 100 * m.maxFuel < p.fuel_liters ∧
        1/10 < p.fuel_liters - car.fuel / 100 * m.maxFuel) := by
  simp only [carEvent, hm, hp]
  rw [if_pos ht]
  split_ifs with h1 h2
  · exact iff_of_true (by simp) ⟨h1.1, h1.2, h2⟩
  · refine iff_of_false (by simp) ?_
    rintro ⟨-, -, hth⟩
    exact h2 hth
  · refine iff_of_false (by simp) ?_
    rintro ⟨ha, hlt, -⟩
    exact h1 ⟨ha, hlt⟩

/-- Every row written by `save_current_state` comes from a fetched car
whose model resolves with an admitted type, and stores the normalized,
2-decimal-rounded fuel. -/
theorem mem_save_current_state {cars : List Car} {models : List (ℤ × ModelInfo)}
    {x : ℤ × StateEntry} (h : x ∈ save_current_state cars models) :
    ∃ car ∈ cars, ∃ m, modelLookup models car.modelId = some m ∧
      (m.type = 1 ∨ m.type = 2) ∧
      x = (car.id, ⟨car.fuel, round2 (car.fuel / 100 * m.maxFuel),
                   car.available, car.modelId⟩) := by
  unfold save_current_state at h
  rcases List.mem_filterMap.mp h with ⟨car, hcar, hf⟩
  rcases hm : modelLookup models car.modelId with _ | m
  · simp [hm] at hf
  · simp only [hm] at hf
    split_ifs at hf with ht
    cases hf
    exact ⟨car, hcar, m, hm, ht, rfl⟩

/-- Conversely, every fetched car with an admitted model produces its row. -/
theorem save_current_state_mem {cars : List Car} {models : List (ℤ × ModelInfo)}
    {car : Car} {m : ModelInfo} (hcar : car ∈ cars)
    (hm : modelLookup models car.modelId = some m) (ht : m.type = 1 ∨ m.type = 2) :
    (car.id, (⟨car.fuel, round2 (car.fuel / 100 * m.maxFuel),
               car.available, car.modelId⟩ : StateEntry))
      ∈ save_current_state cars models := by
  unfold save_current_state
  refine List.mem_filterMap.mpr ⟨car, hcar, ?_⟩
  simp only [hm]
  rw [if_pos ht]

/-- Every event of the polling derivation comes from a fetched car via the
per-car test. -/
theorem mem_calculate_consumption {state : List (ℤ × StateEntry)}
    {cars : List Car} {models : List (ℤ × ModelInfo)} {e : MonitorEvent}
    (h : e ∈ calculate_consumption state cars models) :
    ∃ car ∈ cars, carEvent state models car = some e :=
  List.mem_filterMap.mp h

/-- An emitting database pair forces the invariant and carries the car id
it was scanned under. -/
theorem dbPairEvent_eq_some_spec {cid : ℤ} {prev curr : DbReading} {e : DbEvent}
    (h : dbPairEvent cid prev curr = some e) :
    e.car_id = cid ∧ prev.available = true ∧
    e.consumption = prev.fuel - curr.fuel ∧
    curr.fuel < prev.fuel ∧ 1/10 < e.consumption := by
  simp only [dbPairEvent] at h
  split_ifs at h with h1 h2
  rcases h1 with ⟨ha, hlt⟩
  cases h
  exact ⟨rfl, ha, rfl, hlt, h2⟩

/-- The emission test of the database pair scan. -/
theorem dbPairEvent_isSome_iff {cid : ℤ} {prev curr : DbReading}
    (ha : prev.available = true) :
    (dbPairEvent cid prev curr).isSome = true ↔
      (curr.fuel < prev.fuel ∧ 1/10 < prev.fuel - curr.fuel) := by
  simp only [dbPairEvent]
  split_ifs with h1 h2
  · exact iff_of_true (by simp) ⟨h1.2, h2⟩
  · refine iff_of_false (by simp) ?_
    rintro ⟨-, hth⟩
    exact h2 hth
  · refine iff_of_false (by simp) ?_
    rintro ⟨hlt, -⟩
    exact h1 ⟨ha, hlt⟩

/-- Events of a database pair scan carry the scanned car id. -/
theorem mem_dbScanPairs {cid : ℤ} {l : List DbReading} {e : DbEvent}
    (h : e ∈ dbScanPairs cid l) : e.car_id = cid := by
  induction l with
  | nil => simp [dbScanPairs] at h
  | cons x xs ih =>
      cases xs with
      | nil => simp [dbScanPairs] at h
      | cons y ys =>
          rw [dbScanPairs] at h
          rcases List.mem_append.mp h with h1 | h2
          · cases hpe : dbPairEvent cid x y with
            | none => rw [hpe] at h1; simp at h1
            | some a =>
                rw [hpe] at h1
                simp only [Option.toList_some, List.mem_singleton] at h1
                subst h1
                exact (dbPairEvent_eq_some_spec hpe).1
          · exact ih h2

/-! ## Concrete evaluation helpers (shared by several witnesses) -/

/-- The batch derivation on a two-reading car: 40 then 30 liters emits one
event of 10 liters. -/
theorem batch_example_eval :
    calculate_consumption_from_readings
      [⟨0, 7, "A", 1, some 40, true⟩, ⟨60, 7, "A", 1, some 30, true⟩]
      = [⟨60, 7, "A", 1, 10, 40, 30, 1, 0⟩] := by
  norm_num [calculate_consumption_from_readings, carIds, insertId, sortByTs,
    insertByTs, scanPairs, pairEvent]

/-- Pairwise scan of the same two readings. -/
theorem scan_example_eval :
    scanPairs 7 [⟨0, 7, "A", 1, some 40, true⟩, ⟨60, 7, "A", 1, some 30, true⟩]
      = [⟨60, 7, "A", 1, 10, 40, 30, 1, 0⟩] := by
  norm_num [scanPairs, pairEvent]

/-- The polling pipeline on the spec scenario: capacity 50, 80% then 60%,
one event of exactly 10. -/
theorem monitor_example_eval :
    calculate_consumption
      (save_current_state [⟨7, 80, true, 1⟩] [(1, ⟨"M", 1, 50⟩)])
      [⟨7, 60, true, 1⟩] [(1, ⟨"M", 1, 50⟩)]
      = [⟨7, 10, "M", 1, 40, 30⟩] := by
  norm_num [calculate_consumption, carEvent, save_current_state, modelLookup,
    stateLookup, round2, List.filterMap, List.find?]

/-- The state row written for the 80%-full capacity-50 car. -/
theorem save_example_eval :
    save_current_state [⟨7, 80, true, 1⟩] [(1, ⟨"M", 1, 50⟩)]
      = [(7, ⟨80, 40, true, 1⟩)] := by
  norm_num [save_current_state, modelLookup, round2, List.filterMap, List.find?]

/-! ## Claims -/

/-- C1: For every adjacent pair of readings (A earlier, B later) of the
same vehicle, the derivation emits an event iff A is available, B's fuel
is strictly below A's, and the drop exceeds the threshold; B's
availability never affects emission (a refuel, being a non-drop, emits
nothing by the iff); and every emitted event satisfies
`prev_fuel > curr_fuel`, `consumption = prev_fuel − curr_fuel > 0.1`,
with the earlier reading available.  The last conjunct states the same
emission test for the polling derivation. -/
theorem emission_iff_available_drop_above_threshold :
    (∀ (cid : ℤ) (prev curr : Reading) (pf cf : ℚ),
        prev.fuel_liters = some pf → curr.fuel_liters = some cf →
        ((pairEvent cid prev curr).isSome = true ↔
          (prev.available = true ∧ cf < pf ∧ 1/10 < pf - cf)))
    ∧ (∀ (cid : ℤ) (prev curr : Reading) (b : Bool),
        pairEvent cid prev { curr with available := b } = pairEvent cid prev curr)
    ∧ (∀ (df : List Reading) (e : ConsumptionEvent),
        e ∈ calculate_consumption_from_readings df →
        e.curr_fuel_liters < e.prev_fuel_liters ∧
        e.consumption_liters = e.prev_fuel_liters - e.curr_fuel_liters ∧
        1/10 < e.consumption_liters ∧
        ∃ A B, A ∈ df ∧ B ∈ df ∧ A.car_id = e.car_id ∧ B.car_id = e.car_id ∧
          A.available = true ∧ pairEvent e.car_id A B = some e)
    ∧ (∀ (state : List (ℤ × StateEntry)) (models : List (ℤ × ModelInfo))
        (car : Car) (m : ModelInfo) (p : StateEntry),
        modelLookup models car.modelId = some m → (m.type = 1 ∨ m.type = 2) →
        stateLookup state car.id = some p →
        ((carEvent state models car).isSome = true ↔
          (p.available = true ∧ car.fuel / 100 * m.maxFuel < p.fuel_liters ∧
            1/10 < p.fuel_liters - car.fuel / 100 * m.maxFuel))) := by
  refine ⟨?_, ?_, ?_, ?_⟩
  · intro cid prev curr pf cf hp hc
    exact pairEvent_isSome_iff hp hc
  · intro cid prev curr b
    exact pairEvent_ignores_curr_available cid prev curr b
  · intro df e he
    obtain ⟨A, B, hA, hB, hcA, hcB, hpe⟩ := mem_batch_derivation he
    obtain ⟨ha, -, -, -, hcons, hlt, hth, -, -, -, -⟩ := pairEvent_eq_some_spec hpe
    exact ⟨hlt, hcons, hth, A, B, hA, hB, hcA, hcB, ha, hpe⟩
  · intro state models car m p hm ht hp
    exact carEvent_isSome_iff hm ht hp

/-- C1 witness: the theorem instantiated at a concrete adjacent pair, a
flipped later availability, a concrete input set, and a concrete polling
state. -/
theorem emission_iff_available_drop_above_threshold_witness :
    ((pairEvent 7 ⟨0, 7, "A", 1, some 40, true⟩
        ⟨60, 7, "A", 1, some 30, true⟩).isSome = true ↔
      (true = true ∧ (30:ℚ) < 40 ∧ 1/10 < (40:ℚ) - 30))
    ∧ pairEvent 7 ⟨0, 7, "A", 1, some 40, true⟩ ⟨60, 7, "A", 1, some 30, false⟩
        = pairEvent 7 ⟨0, 7, "A", 1, some 40, true⟩ ⟨60, 7, "A", 1, some 30, true⟩
    ∧ ((10:ℚ) = 40 - 30 ∧ (30:ℚ) < 40 ∧ 1/10 < (10:ℚ) ∧
        ∃ A B, A ∈ [(⟨0, 7, "A", 1, some 40, true⟩ : Reading),
                    ⟨60, 7, "A", 1, some 30, true⟩] ∧
          A.available = true ∧ pairEvent 7 A B = some ⟨60, 7, "A", 1, 10, 40, 30, 1, 0⟩)
    ∧ ((carEvent [(7, ⟨80, 40, true, 1⟩)] [(1, ⟨"M", 1, 50⟩)]
          ⟨7, 60, true, 1⟩).isSome = true ↔
        (true = true ∧ (60:ℚ) / 100 * 50 < 40 ∧ 1/10 < (40:ℚ) - 60 / 100 * 50)) := by
  refine ⟨?_, ?_, ?_, ?_⟩
  · exact emission_iff_available_drop_above_threshold.1 7 _ _ 40 30 rfl rfl
  · exact emission_iff_available_drop_above_threshold.2.1 7
      ⟨0, 7, "A", 1, some 40, true⟩ ⟨60, 7, "A", 1, some 30, true⟩ false
  · obtain ⟨hlt, hcons, hth, A, B, hA, hB, -, -, ha, hpe⟩ :=
      emission_iff_available_drop_above_threshold.2.2.1
        [⟨0, 7, "A", 1, some 40, true⟩, ⟨60, 7, "A", 1, some 30, true⟩]
        ⟨60, 7, "A", 1, 10, 40, 30, 1, 0⟩
        (by rw [batch_example_eval]; exact List.mem_cons_self ..)
    exact ⟨hcons, hlt, hth, A, B, hA, ha, hpe⟩
  · exact emission_iff_available_drop_above_threshold.2.2.2
      [(7, ⟨80, 40, true, 1⟩)] [(1, ⟨"M", 1, 50⟩)] ⟨7, 60, true, 1⟩
      ⟨"M", 1, 50⟩ ⟨80, 40, true, 1⟩ rfl (Or.inl rfl) rfl

/-- C2: with the earlier reading available, a drop of at most 0.1
(absolute units, after any normalization feeding the inputs) yields no
event and any drop strictly above 0.1 yields one; the threshold is the
same fixed literal in the batch and database scans and is unaffected by
the reading's model fields. -/
theorem threshold_strict_fixed :
    (∀ (cid : ℤ) (prev curr : Reading) (pf cf : ℚ),
        prev.fuel_liters = some pf → curr.fuel_liters = some cf →
        prev.available = true →
        ((pf - cf ≤ 1/10 → pairEvent cid prev curr = none) ∧
         (1/10 < pf - cf → (pairEvent cid prev curr).isSome = true)))
    ∧ (∀ (cid : ℤ) (prev curr : Reading) (name : String) (mt : ℤ),
        (pairEvent cid prev
            { curr with car_name := name, model_type := mt }).isSome
          = (pairEvent cid prev curr).isSome)
    ∧ (∀ (cid : ℤ) (prev curr : DbReading), prev.available = true →
        ((prev.fuel - curr.fuel ≤ 1/10 → dbPairEvent cid prev curr = none) ∧
         (1/10 < prev.fuel - curr.fuel →
           (dbPairEvent cid prev curr).isSome = true))) := by
  refine ⟨?_, ?_, ?_⟩
  · intro cid prev curr pf cf hp hc ha
    constructor
    · intro hle
      have hno : ¬ (pairEvent cid prev curr).isSome = true := by
        rw [pairEvent_isSome_iff hp hc]
        rintro ⟨-, -, hth⟩
        linarith
      exact Option.not_isSome_iff_eq_none.mp hno
    · intro hth
      rw [pairEvent_isSome_iff hp hc]
      exact ⟨ha, by linarith, hth⟩
  · intro cid prev curr name mt
    cases curr with
    | mk ts id nm mt0 fuel avail =>
        rcases hp : prev.fuel_liters with _ | pf
        · simp [pairEvent, hp]
        · cases fuel with
          | none => simp [pairEvent, hp]
          | some cf =>
              simp only [pairEvent, hp]
              split_ifs <;> rfl
  · intro cid prev curr ha
    constructor
    · intro hle
      have hno : ¬ (dbPairEvent cid prev curr).isSome = true := by
        rw [dbPairEvent_isSome_iff ha]
        rintro ⟨-, hth⟩
        linarith
      exact Option.not_isSome_iff_eq_none.mp hno
    · intro hth
      rw [dbPairEvent_isSome_iff ha]
      exact ⟨by linarith, hth⟩

/-- C2 witness: a drop of exactly 0.1 (40 → 39.9) suppressed, a drop of
0.1000001 emitted, insensitivity to the later reading's model fields, and
the same threshold on a database pair. -/
theorem threshold_strict_fixed_witness :
    (((40:ℚ) - 399/10 ≤ 1/10 →
        pairEvent 7 ⟨0, 7, "A", 1, some 40, true⟩
          ⟨60, 7, "A", 1, some (399/10), true⟩ = none) ∧
      (1/10 < (40:ℚ) - 399/10 →
        (pairEvent 7 ⟨0, 7, "A", 1, some 40, true⟩
          ⟨60, 7, "A", 1, some (399/10), true⟩).isSome = true))
    ∧ ((1/10 < (40:ℚ) - 398999999/10000000 →
        (pairEvent 7 ⟨0, 7, "A", 1, some 40, true⟩
          ⟨60, 7, "A", 1, some (398999999/10000000), true⟩).isSome = true))
    ∧ ((pairEvent 7 ⟨0, 7, "A", 1, some 40, true⟩
          ⟨60, 7, "B", 2, some 30, true⟩).isSome
        = (pairEvent 7 ⟨0, 7, "A", 1, some 40, true⟩
          ⟨60, 7, "A", 1, some 30, true⟩).isSome)
    ∧ (((50:ℚ) - 499/10 ≤ 1/10 →
        dbPairEvent 5 ⟨0, 50, true⟩ ⟨1, 499/10, true⟩ = none) ∧
       (1/10 < (50:ℚ) - 499/10 →
        (dbPairEvent 5 ⟨0, 50, true⟩ ⟨1, 499/10, true⟩).isSome = true)) := by
  refine ⟨?_, ?_, ?_, ?_⟩
  · exact threshold_strict_fixed.1 7 _ _ 40 (399/10) rfl rfl rfl
  · exact (threshold_strict_fixed.1 7 _ _ 40 (398999999/10000000) rfl rfl rfl).2
  · exact threshold_strict_fixed.2.1 7 ⟨0, 7, "A", 1, some 40, true⟩
      ⟨60, 7, "A", 1, some 30, true⟩ "B" 2
  · exact threshold_strict_fixed.2.2 5 ⟨0, 50, true⟩ ⟨1, 499/10, true⟩ rfl

/-- C7: the empty input yields the empty output; a vehicle with a single
reading contributes nothing; every event stems from two readings of the
input carrying the event's own car id (no cross-vehicle comparison); and
within a group scan the later reading of an emitting pair is never the
group's first reading. -/
theorem no_first_reading_or_cross_vehicle_events :
    (calculate_consumption_from_readings [] = [])
    ∧ (∀ r : Reading, calculate_consumption_from_readings [r] = [])
    ∧ (∀ (df : List Reading) (e : ConsumptionEvent),
        e ∈ calculate_consumption_from_readings df →
        ∃ A B, A ∈ df ∧ B ∈ df ∧ A.car_id = e.car_id ∧ B.car_id = e.car_id ∧
          pairEvent e.car_id A B = some e)
    ∧ (∀ (cid : ℤ) (x : Reading) (l : List Reading) (e : ConsumptionEvent),
        e ∈ scanPairs cid (x :: l) →
        ∃ B ∈ l, ∃ A ∈ x :: l, pairEvent cid A B = some e) := by
  refine ⟨rfl, ?_, ?_, ?_⟩
  · intro r
    simp [calculate_consumption_from_readings, carIds, insertId, sortByTs,
      insertByTs, scanPairs, List.filter]
  · intro df e he
    obtain ⟨A, B, hA, hB, hcA, hcB, hpe⟩ := mem_batch_derivation he
    exact ⟨A, B, hA, hB, hcA, hcB, hpe⟩
  · intro cid x l e he
    obtain ⟨A, B, hA, hB, hpe⟩ := mem_scanPairs he
    exact ⟨B, hB, A, hA, hpe⟩

/-- C7 witness: a singleton input, a concrete event of a concrete input
set, and a concrete group scan. -/
theorem no_first_reading_or_cross_vehicle_events_witness :
    calculate_consumption_from_readings [⟨0, 3, "A", 1, some 40, true⟩] = []
    ∧ (∃ A B, A ∈ [(⟨0, 7, "A", 1, some 40, true⟩ : Reading),
                   ⟨60, 7, "A", 1, some 30, true⟩] ∧
        A.car_id = 7 ∧ B.car_id = 7 ∧
        pairEvent 7 A B = some ⟨60, 7, "A", 1, 10, 40, 30, 1, 0⟩)
    ∧ (∃ B ∈ [(⟨60, 7, "A", 1, some 30, true⟩ : Reading)],
        ∃ A ∈ [(⟨0, 7, "A", 1, some 40, true⟩ : Reading),
               ⟨60, 7, "A", 1, some 30, true⟩],
          pairEvent 7 A B = some ⟨60, 7, "A", 1, 10, 40, 30, 1, 0⟩) := by
  refine ⟨?_, ?_, ?_⟩
  · exact no_first_reading_or_cross_vehicle_events.2.1 ⟨0, 3, "A", 1, some 40, true⟩
  · obtain ⟨A, B, hA, hB, hcA, hcB, hpe⟩ :=
      no_first_reading_or_cross_vehicle_events.2.2.1
        [⟨0, 7, "A", 1, some 40, true⟩, ⟨60, 7, "A", 1, some 30, true⟩]
        ⟨60, 7, "A", 1, 10, 40, 30, 1, 0⟩
        (by rw [batch_example_eval]; exact List.mem_cons_self ..)
    exact ⟨A, B, hA, hcA, hcB, hpe⟩
  · exact no_first_reading_or_cross_vehicle_events.2.2.2 7
      ⟨0, 7, "A", 1, some 40, true⟩ [⟨60, 7, "A", 1, some 30, true⟩]
      ⟨60, 7, "A", 1, 10, 40, 30, 1, 0⟩
      (by rw [scan_example_eval]; exact List.mem_cons_self ..)

/-- C8: the derivation is a pure function of the reading set alone:
rerunning it on the unchanged input yields the identical event list,
order and field values included, and equal inputs yield equal outputs. -/
theorem derivation_idempotent :
    ∀ df : List Reading,
      calculate_consumption_from_readings df = calculate_consumption_from_readings df
      ∧ (∀ df2 : List Reading, df = df2 →
          calculate_consumption_from_readings df
            = calculate_consumption_from_readings df2) := by
  intro df
  refine ⟨rfl, ?_⟩
  intro df2 h
  rw [h]

/-- C8 witness: idempotence at a concrete input. -/
theorem derivation_idempotent_witness :
    calculate_consumption_from_readings
        [⟨0, 7, "A", 1, some 40, true⟩, ⟨60, 7, "A", 1, some 30, true⟩]
      = calculate_consumption_from_readings
        [⟨0, 7, "A", 1, some 40, true⟩, ⟨60, 7, "A", 1, some 30, true⟩] :=
  (derivation_idempotent
    [⟨0, 7, "A", 1, some 40, true⟩, ⟨60, 7, "A", 1, some 30, true⟩]).2
    [⟨0, 7, "A", 1, some 40, true⟩, ⟨60, 7, "A", 1, some 30, true⟩] rfl

/-- C9: the database derivation scans only `cars_with_data[:10]`: every
event's car id lies among the first ten returned multi-reading ids, and an
id beyond them never appears on an event. -/
theorem db_scans_first_ten_vehicles_only :
    (∀ (ids : List ℤ) (readings : ℤ → List DbReading) (e : DbEvent),
        e ∈ calculate_fuel_consumption ids readings → e.car_id ∈ ids.take 10)
    ∧ (∀ (ids : List ℤ) (readings : ℤ → List DbReading) (c : ℤ),
        c ∉ ids.take 10 →
        ∀ e ∈ calculate_fuel_consumption ids readings, e.car_id ≠ c) := by
  have h1 : ∀ (ids : List ℤ) (readings : ℤ → List DbReading) (e : DbEvent),
      e ∈ calculate_fuel_consumption ids readings → e.car_id ∈ ids.take 10 := by
    intro ids readings e he
    rcases List.mem_flatMap.mp he with ⟨cid, hcid, hmem⟩
    rw [mem_dbScanPairs hmem]
    exact hcid
  refine ⟨h1, ?_⟩
  intro ids readings c hc e he heq
  exact hc (heq ▸ h1 ids readings e he)

/-- C9 witness: an eleven-car table where only the first car consumes —
its event id is among the first ten — and the eleventh id, though its
rows show a large drop, never labels an event. -/
theorem db_scans_first_ten_vehicles_only_witness :
    ((⟨1, 20, 0, 1⟩ : DbEvent).car_id ∈
        ([1, 2, 3, 4, 5, 6, 7, 8, 9, 10, 11] : List ℤ).take 10)
    ∧ ((⟨1, 20, 0, 1⟩ : DbEvent).car_id ≠ 11) := by
  have hread : (⟨1, 20, 0, 1⟩ : DbEvent) ∈
      calculate_fuel_consumption [1, 2, 3, 4, 5, 6, 7, 8, 9, 10, 11]
        (fun c => if c = 1 ∨ c = 11 then [⟨0, 50, true⟩, ⟨1, 30, true⟩] else []) := by
    norm_num [calculate_fuel_consumption, dbScanPairs, dbPairEvent]
  refine ⟨?_, ?_⟩
  · exact db_scans_first_ten_vehicles_only.1 [1, 2, 3, 4, 5, 6, 7, 8, 9, 10, 11]
      (fun c => if c = 1 ∨ c = 11 then [⟨0, 50, true⟩, ⟨1, 30, true⟩] else [])
      ⟨1, 20, 0, 1⟩ hread
  · exact db_scans_first_ten_vehicles_only.2 [1, 2, 3, 4, 5, 6, 7, 8, 9, 10, 11]
      (fun c => if c = 1 ∨ c = 11 then [⟨0, 50, true⟩, ⟨1, 30, true⟩] else [])
      11 (by decide) ⟨1, 20, 0, 1⟩ hread

/-- C4: a car whose model does not resolve, or resolves to a type outside
{1,2}, contributes nothing to the polling outputs: its per-car test yields
no event, every emitted event stems from a car with a resolved type-1-or-2
model, and every saved state row does too. -/
theorem unresolved_model_contributes_nothing :
    (∀ (state : List (ℤ × StateEntry)) (models : List (ℤ × ModelInfo)) (car : Car),
        (modelLookup models car.modelId = none ∨
          (∃ m, modelLookup models car.modelId = some m ∧ m.type ≠ 1 ∧ m.type ≠ 2)) →
        carEvent state models car = none)
    ∧ (∀ (state : List (ℤ × StateEntry)) (cars : List Car)
        (models : List (ℤ × ModelInfo)) (e : MonitorEvent),
        e ∈ calculate_consumption state cars models →
        ∃ car ∈ cars, car.id = e.car_id ∧
          ∃ m, modelLookup models car.modelId = some m ∧
            (m.type = 1 ∨ m.type = 2) ∧ e.model_type = m.type)
    ∧ (∀ (cars : List Car) (models : List (ℤ × ModelInfo)) (x : ℤ × StateEntry),
        x ∈ save_current_state cars models →
        ∃ car ∈ cars, x.1 = car.id ∧
          ∃ m, modelLookup models car.modelId = some m ∧
            (m.type = 1 ∨ m.type = 2)) := by
  refine ⟨?_, ?_, ?_⟩
  · intro state models car h
    rcases h with hnone | ⟨m, hm, h1, h2⟩
    · simp [carEvent, hnone]
    · simp only [carEvent, hm]
      rw [if_neg]
      rintro (h | h)
      · exact h1 h
      · exact h2 h
  · intro state cars models e he
    obtain ⟨car, hcar, hce⟩ := mem_calculate_consumption he
    obtain ⟨m, hm, ht, p, -, -, hid, -, -, -, -, -, -, hmt⟩ := carEvent_eq_some_spec hce
    exact ⟨car, hcar, hid.symm, m, hm, ht, hmt⟩
  · intro cars models x hx
    obtain ⟨car, hcar, m, hm, ht, hxeq⟩ := mem_save_current_state hx
    refine ⟨car, hcar, ?_, m, hm, ht⟩
    rw [hxeq]

/-- C4 witness: a car with an unknown model id yields no per-car event
even over a fuel drop; the concrete polling event and saved row both come
from the known type-1 model. -/
theorem unresolved_model_contributes_nothing_witness :
    carEvent [(7, ⟨80, 40, true, 1⟩)] [(1, ⟨"M", 1, 50⟩)] ⟨7, 10, true, 99⟩ = none
    ∧ (∃ car ∈ [(⟨7, 60, true, 1⟩ : Car)], car.id = 7 ∧
        ∃ m, modelLookup [(1, ⟨"M", 1, 50⟩)] car.modelId = some m ∧
          (m.type = 1 ∨ m.type = 2) ∧ (1:ℤ) = m.type)
    ∧ (∃ car ∈ [(⟨7, 80, true, 1⟩ : Car)], (7:ℤ) = car.id ∧
        ∃ m, modelLookup [(1, ⟨"M", 1, 50⟩)] car.modelId = some m ∧
          (m.type = 1 ∨ m.type = 2)) := by
  refine ⟨?_, ?_, ?_⟩
  · exact unresolved_model_contributes_nothing.1 [(7, ⟨80, 40, true, 1⟩)]
      [(1, ⟨"M", 1, 50⟩)] ⟨7, 10, true, 99⟩ (Or.inl rfl)
  · exact unresolved_model_contributes_nothing.2.1
      (save_current_state [⟨7, 80, true, 1⟩] [(1, ⟨"M", 1, 50⟩)])
      [⟨7, 60, true, 1⟩] [(1, ⟨"M", 1, 50⟩)] ⟨7, 10, "M", 1, 40, 30⟩
      (by rw [monitor_example_eval]; exact List.mem_cons_self ..)
  · exact unresolved_model_contributes_nothing.2.2
      [⟨7, 80, true, 1⟩] [(1, ⟨"M", 1, 50⟩)] (7, ⟨80, 40, true, 1⟩)
      (by rw [save_example_eval]; exact List.mem_cons_self ..)

/-- C3: the polling derivation normalizes a percentage reading to absolute
volume as `(percent / 100) * maxFuel`, on the current side of every
emitted event and (before storage rounding) on the saved side; the spec
scenario — capacity 50, readings 80% then 60%, earlier available — yields
exactly one event of exactly 10.00. -/
theorem percent_to_liters_normalization :
    (∀ (state : List (ℤ × StateEntry)) (cars : List Car)
        (models : List (ℤ × ModelInfo)) (e : MonitorEvent),
        e ∈ calculate_consumption state cars models →
        ∃ car ∈ cars, ∃ m, modelLookup models car.modelId = some m ∧
          e.car_id = car.id ∧ e.curr_fuel = car.fuel / 100 * m.maxFuel)
    ∧ (∀ (cars : List Car) (models : List (ℤ × ModelInfo)) (x : ℤ × StateEntry),
        x ∈ save_current_state cars models →
        ∃ car ∈ cars, ∃ m, modelLookup models car.modelId = some m ∧
          x.2.fuel_liters = round2 (car.fuel / 100 * m.maxFuel))
    ∧ calculate_consumption
        (save_current_state [⟨7, 80, true, 1⟩] [(1, ⟨"M", 1, 50⟩)])
        [⟨7, 60, true, 1⟩] [(1, ⟨"M", 1, 50⟩)]
        = [⟨7, 10, "M", 1, 40, 30⟩] := by
  refine ⟨?_, ?_, monitor_example_eval⟩
  · intro state cars models e he
    obtain ⟨car, hcar, hce⟩ := mem_calculate_consumption he
    obtain ⟨m, hm, -, p, -, -, hid, hcurr, -⟩ := carEvent_eq_some_spec hce
    exact ⟨car, hcar, m, hm, hid, hcurr⟩
  · intro cars models x hx
    obtain ⟨car, hcar, m, hm, -, hxeq⟩ := mem_save_current_state hx
    refine ⟨car, hcar, m, hm, ?_⟩
    rw [hxeq]

/-- C3 witness: the normalization facts instantiated on the concrete
scenario event and state row. -/
theorem percent_to_liters_normalization_witness :
    (∃ car ∈ [(⟨7, 60, true, 1⟩ : Car)],
      ∃ m, modelLookup [(1, ⟨"M", 1, 50⟩)] car.modelId = some m ∧
        (7:ℤ) = car.id ∧ (30:ℚ) = car.fuel / 100 * m.maxFuel)
    ∧ (∃ car ∈ [(⟨7, 80, true, 1⟩ : Car)],
        ∃ m, modelLookup [(1, ⟨"M", 1, 50⟩)] car.modelId = some m ∧
          (40:ℚ) = round2 (car.fuel / 100 * m.maxFuel)) := by
  refine ⟨?_, ?_⟩
  · exact percent_to_liters_normalization.1
      (save_current_state [⟨7, 80, true, 1⟩] [(1, ⟨"M", 1, 50⟩)])
      [⟨7, 60, true, 1⟩] [(1, ⟨"M", 1, 50⟩)] ⟨7, 10, "M", 1, 40, 30⟩
      (by rw [monitor_example_eval]; exact List.mem_cons_self ..)
  · exact percent_to_liters_normalization.2.1
      [⟨7, 80, true, 1⟩] [(1, ⟨"M", 1, 50⟩)] (7, ⟨80, 40, true, 1⟩)
      (by rw [save_example_eval]; exact List.mem_cons_self ..)

/-- C10: a polling event needs the vehicle in both the previous state and
the current poll; the rewritten state contains exactly the currently
fetched valid-model cars; and a vehicle absent from one poll (here car 7,
replaced by car 8) loses its snapshot, so its next observed drop — 80%
down to 40% of a 50-liter tank — produces no event. -/
theorem state_presence_required_for_event :
    (∀ (state : List (ℤ × StateEntry)) (cars : List Car)
        (models : List (ℤ × ModelInfo)) (e : MonitorEvent),
        e ∈ calculate_consumption state cars models →
        (stateLookup state e.car_id).isSome = true ∧ ∃ car ∈ cars, car.id = e.car_id)
    ∧ (∀ (cars : List Car) (models : List (ℤ × ModelInfo)) (i : ℤ),
        (stateLookup (save_current_state cars models) i).isSome = true ↔
          ∃ car ∈ cars, car.id = i ∧
            ∃ m, modelLookup models car.modelId = some m ∧
              (m.type = 1 ∨ m.type = 2))
    ∧ calculate_consumption
        (save_current_state [⟨8, 50, true, 1⟩] [(1, ⟨"M", 1, 50⟩)])
        [⟨7, 40, true, 1⟩] [(1, ⟨"M", 1, 50⟩)] = [] := by
  refine ⟨?_, ?_, ?_⟩
  · intro state cars models e he
    obtain ⟨car, hcar, hce⟩ := mem_calculate_consumption he
    obtain ⟨m, -, -, p, hp, -, hid, -⟩ := carEvent_eq_some_spec hce
    constructor
    · rw [hid]
      rw [stateLookup_isSome_iff]
      exact ⟨(car.id, p), stateLookup_eq_some hp, rfl⟩
    · exact ⟨car, hcar, hid.symm⟩
  · intro cars models i
    constructor
    · intro h
      obtain ⟨x, hx, hxi⟩ := stateLookup_isSome_iff.mp h
      obtain ⟨car, hcar, m, hm, ht, hxeq⟩ := mem_save_current_state hx
      refine ⟨car, hcar, ?_, m, hm, ht⟩
      rw [← hxi, hxeq]
    · rintro ⟨car, hcar, hi, m, hm, ht⟩
      rw [stateLookup_isSome_iff]
      exact ⟨(car.id, ⟨car.fuel, round2 (car.fuel / 100 * m.maxFuel),
                      car.available, car.modelId⟩),
             save_current_state_mem hcar hm ht, hi⟩
  · norm_num [calculate_consumption, carEvent, save_current_state, modelLookup,
      stateLookup, round2, List.filterMap, List.find?]

/-- C10 witness: the state-presence facts instantiated on the concrete
scenario event, and the saved-state membership equivalence at the concrete
poll. -/
theorem state_presence_required_for_event_witness :
    ((stateLookup (save_current_state [⟨7, 80, true, 1⟩] [(1, ⟨"M", 1, 50⟩)])
        (7:ℤ)).isSome = true
      ∧ ∃ car ∈ [(⟨7, 60, true, 1⟩ : Car)], car.id = 7)
    ∧ ((stateLookup (save_current_state [⟨8, 50, true, 1⟩] [(1, ⟨"M", 1, 50⟩)])
          (7:ℤ)).isSome = true ↔
        ∃ car ∈ [(⟨8, 50, true, 1⟩ : Car)], car.id = 7 ∧
          ∃ m, modelLookup [(1, ⟨"M", 1, 50⟩)] car.modelId = some m ∧
            (m.type = 1 ∨ m.type = 2)) := by
  refine ⟨?_, ?_⟩
  · exact state_presence_required_for_event.1
      (save_current_state [⟨7, 80, true, 1⟩] [(1, ⟨"M", 1, 50⟩)])
      [⟨7, 60, true, 1⟩] [(1, ⟨"M", 1, 50⟩)] ⟨7, 10, "M", 1, 40, 30⟩
      (by rw [monitor_example_eval]; exact List.mem_cons_self ..)
  · exact state_presence_required_for_event.2.1 [⟨8, 50, true, 1⟩]
      [(1, ⟨"M", 1, 50⟩)] 7

/-- C5 counterexample: capacity 50; the previous poll reads 80.004%,
normalizing to 40.002 liters but stored as 40.00 by the 2-decimal state
format; the current poll reads 79.8% (39.9 liters).  Against the stored
value the drop is exactly 0.1 and no event is emitted, while a
full-precision previous snapshot yields the drop 0.102 and one event — so
emission does depend on the 2-decimal rounding of the stored value. -/
theorem rounding_changes_emission :
    calculate_consumption
        (save_current_state [⟨7, 80004/1000, true, 1⟩] [(1, ⟨"M", 1, 50⟩)])
        [⟨7, 798/10, true, 1⟩] [(1, ⟨"M", 1, 50⟩)] = []
    ∧ calculate_consumption
        (save_state_full_precision [⟨7, 80004/1000, true, 1⟩] [(1, ⟨"M", 1, 50⟩)])
        [⟨7, 798/10, true, 1⟩] [(1, ⟨"M", 1, 50⟩)]
        = [⟨7, 102/1000, "M", 1, 40002/1000, 399/10⟩] := by
  constructor
  · norm_num [calculate_consumption, carEvent, save_current_state, modelLookup,
      stateLookup, round2, round_eq, List.filterMap, List.find?]
  · norm_num [calculate_consumption, carEvent, save_state_full_precision,
      modelLookup, stateLookup, List.filterMap, List.find?]

/-- C5 amended: output rounding aside, the batch derivation compares the
fuel values of its input exactly as given; the polling derivation,
however, compares the current full-precision normalized fuel against the
previously *stored* snapshot, which holds the normalized fuel rounded to
two decimals — so polling emission and amounts are functions of that
stored rounded value. -/
theorem batch_full_precision_polling_stored_rounded :
    (∀ (cid : ℤ) (prev curr : Reading) (pf cf : ℚ),
        prev.fuel_liters = some pf → curr.fuel_liters = some cf →
        ((pairEvent cid prev curr).isSome = true ↔
          (prev.available = true ∧ cf < pf ∧ 1/10 < pf - cf)) ∧
        (∀ e, pairEvent cid prev curr = some e →
          e.consumption_liters = pf - cf))
    ∧ (∀ (cars1 cars2 : List Car) (models : List (ℤ × ModelInfo)) (e : MonitorEvent),
        e ∈ calculate_consumption (save_current_state cars1 models) cars2 models →
        ∃ c1 ∈ cars1, ∃ m1, modelLookup models c1.modelId = some m1 ∧
          e.prev_fuel = round2 (c1.fuel / 100 * m1.maxFuel) ∧
          ∃ c2 ∈ cars2, ∃ m2, modelLookup models c2.modelId = some m2 ∧
            e.curr_fuel = c2.fuel / 100 * m2.maxFuel ∧
            e.consumption = e.prev_fuel - e.curr_fuel) := by
  refine ⟨?_, ?_⟩
  · intro cid prev curr pf cf hp hc
    refine ⟨pairEvent_isSome_iff hp hc, ?_⟩
    intro e he
    obtain ⟨-, hpe, hce, -, hcons, -⟩ := pairEvent_eq_some_spec he
    rw [hp] at hpe
    rw [hc] at hce
    cases hpe
    cases hce
    exact hcons
  · intro cars1 cars2 models e he
    obtain ⟨c2, hc2, hce⟩ := mem_calculate_consumption he
    obtain ⟨m2, hm2, -, p, hp, -, -, hcurr, hprev, hcons, -⟩ :=
      carEvent_eq_some_spec hce
    obtain ⟨c1, hc1, m1, hm1, -, hxeq⟩ :=
      mem_save_current_state (stateLookup_eq_some hp)
    refine ⟨c1, hc1, m1, hm1, ?_, c2, hc2, m2, hm2, hcurr, hcons⟩
    rw [hprev]
    have : p = (⟨c1.fuel, round2 (c1.fuel / 100 * m1.maxFuel),
                c1.available, c1.modelId⟩ : StateEntry) := congrArg Prod.snd hxeq
    rw [this]

/-- C5 amended witness: the batch facts at a concrete pair, and the
polling facts at the concrete pipeline event. -/
theorem batch_full_precision_polling_stored_rounded_witness :
    (((pairEvent 7 ⟨0, 7, "A", 1, some 40, true⟩
          ⟨60, 7, "A", 1, some 30, true⟩).isSome = true ↔
        (true = true ∧ (30:ℚ) < 40 ∧ 1/10 < (40:ℚ) - 30)) ∧
      (∀ e, pairEvent 7 ⟨0, 7, "A", 1, some 40, true⟩
          ⟨60, 7, "A", 1, some 30, true⟩ = some e →
        e.consumption_liters = (40:ℚ) - 30))
    ∧ (∃ c1 ∈ [(⟨7, 80, true, 1⟩ : Car)],
        ∃ m1, modelLookup [(1, ⟨"M", 1, 50⟩)] c1.modelId = some m1 ∧
          (40:ℚ) = round2 (c1.fuel / 100 * m1.maxFuel) ∧
          ∃ c2 ∈ [(⟨7, 60, true, 1⟩ : Car)],
            ∃ m2, modelLookup [(1, ⟨"M", 1, 50⟩)] c2.modelId = some m2 ∧
              (30:ℚ) = c2.fuel / 100 * m2.maxFuel ∧
              (10:ℚ) = 40 - 30) := by
  refine ⟨?_, ?_⟩
  · exact batch_full_precision_polling_stored_rounded.1 7 _ _ 40 30 rfl rfl
  · exact batch_full_precision_polling_stored_rounded.2
      [⟨7, 80, true, 1⟩] [⟨7, 60, true, 1⟩] [(1, ⟨"M", 1, 50⟩)]
      ⟨7, 10, "M", 1, 40, 30⟩
      (by rw [monitor_example_eval]; exact List.mem_cons_self ..)

/-- C6 counterexample: car 1 reads 10 liters, then a malformed reading
(missing fuel), then 5 liters.  The code leaves the malformed reading in
the sequence; both pairs touching it fail their comparisons, so no event
at all is emitted — whereas excluding the reading and comparing across the
gap, as the claim describes, would emit the 10 → 5 event. -/
theorem malformed_reading_not_excluded :
    calculate_consumption_from_readings
        [⟨0, 1, "A", 1, some 10, true⟩, ⟨1, 1, "A", 1, none, true⟩,
         ⟨2, 1, "A", 1, some 5, true⟩] = []
    ∧ derivation_excluding_malformed
        [⟨0, 1, "A", 1, some 10, true⟩, ⟨1, 1, "A", 1, none, true⟩,
         ⟨2, 1, "A", 1, some 5, true⟩]
        = [⟨2, 1, "A", 1, 5, 10, 5, 1/30, 0⟩] := by
  constructor
  · norm_num [calculate_consumption_from_readings, carIds, insertId, sortByTs,
      insertByTs, scanPairs, pairEvent]
  · norm_num [derivation_excluding_malformed, calculate_consumption_from_readings,
      carIds, insertId, sortByTs, insertByTs, scanPairs, pairEvent, List.filter]

/-- C6 amended: the derivation never faults on a malformed reading, but
the reading is not excluded: every pair containing a reading with missing
fuel yields no event, no comparison bridges across it, and the pairs of
the surrounding readings are still processed — events of any prefix or
suffix of a group survive in the full scan. -/
theorem malformed_pair_yields_nothing :
    (∀ (cid : ℤ) (prev curr : Reading),
        (prev.fuel_liters = none ∨ curr.fuel_liters = none) →
        pairEvent cid prev curr = none)
    ∧ (∀ (cid : ℤ) (l rest : List Reading) (e : ConsumptionEvent),
        e ∈ scanPairs cid l → e ∈ scanPairs cid (l ++ rest))
    ∧ (∀ (cid : ℤ) (pre l : List Reading) (e : ConsumptionEvent),
        e ∈ scanPairs cid l → e ∈ scanPairs cid (pre ++ l)) := by
  refine ⟨?_, ?_, ?_⟩
  · intro cid prev curr h
    rcases hp : prev.fuel_liters with _ | pf
    · simp [pairEvent, hp]
    · rcases hc : curr.fuel_liters with _ | cf
      · simp [pairEvent, hp, hc]
      · rw [hp, hc] at h
        rcases h with h | h
        · exact Option.noConfusion h
        · exact Option.noConfusion h
  · intro cid l rest e h
    induction l with
    | nil => simp [scanPairs] at h
    | cons x xs ih =>
        cases xs with
        | nil => simp [scanPairs] at h
        | cons y ys =>
            rw [scanPairs] at h
            rw [List.cons_append, List.cons_append, scanPairs]
            rcases List.mem_append.mp h with h1 | h2
            · exact List.mem_append.mpr (Or.inl h1)
            · have hmem := ih h2
              rw [List.cons_append] at hmem
              exact List.mem_append.mpr (Or.inr hmem)
  · intro cid pre l e h
    induction pre with
    | nil => simpa using h
    | cons x xs ih =>
        rw [List.cons_append]
        cases hxs : xs ++ l with
        | nil =>
            obtain ⟨-, hl⟩ := List.append_eq_nil.mp hxs
            subst hl
            simp [scanPairs] at h
        | cons y ys =>
            rw [scanPairs]
            refine List.mem_append.mpr (Or.inr ?_)
            rw [← hxs]
            exact ih

/-- C6 amended witness: a pair with a missing later fuel yields nothing;
the concrete two-reading scan's event survives appending and prepending
further readings. -/
theorem malformed_pair_yields_nothing_witness :
    pairEvent 1 ⟨0, 1, "A", 1, some 10, true⟩ ⟨1, 1, "A", 1, none, true⟩ = none
    ∧ (⟨60, 7, "A", 1, 10, 40, 30, 1, 0⟩ : ConsumptionEvent) ∈
        scanPairs 7 ([⟨0, 7, "A", 1, some 40, true⟩, ⟨60, 7, "A", 1, some 30, true⟩]
          ++ [⟨120, 7, "A", 1, none, true⟩])
    ∧ (⟨60, 7, "A", 1, 10, 40, 30, 1, 0⟩ : ConsumptionEvent) ∈
        scanPairs 7 ([] ++ [⟨0, 7, "A", 1, some 40, true⟩,
          ⟨60, 7, "A", 1, some 30, true⟩]) := by
  refine ⟨?_, ?_, ?_⟩
  · exact malformed_pair_yields_nothing.1 1 ⟨0, 1, "A", 1, some 10, true⟩
      ⟨1, 1, "A", 1, none, true⟩ (Or.inr rfl)
  · exact malformed_pair_yields_nothing.2.1 7
      [⟨0, 7, "A", 1, some 40, true⟩, ⟨60, 7, "A", 1, some 30, true⟩]
      [⟨120, 7, "A", 1, none, true⟩] ⟨60, 7, "A", 1, 10, 40, 30, 1, 0⟩
      (by rw [scan_example_eval]; exact List.mem_cons_self ..)
  · exact malformed_pair_yields_nothing.2.2 7 []
      [⟨0, 7, "A", 1, some 40, true⟩, ⟨60, 7, "A", 1, some 30, true⟩]
      ⟨60, 7, "A", 1, 10, 40, 30, 1, 0⟩
      (by rw [scan_example_eval]; exact List.mem_cons_self ..)
